import Mathlib

/-!
Shallow embedding of the talos trust-bootstrap subsystem:
secret generation, bootstrap-input construction with IPv4/IPv6 default
selection, the derived endpoint accessors, the remote identity generator
(endpoint failover and certificate polling), and the CIS compliance
artifact writer.  Definitions are translated from the Go source
(pkg/config/config.go concatenation: packages `generate`, `gen`, and the
`cis` package); external collaborators (grpc dialing, the x509 primitive
library, the entropy source, SHA-256) are passed in as explicit
parameters or modelled where noted.
-/

namespace Talos

/-! ## SecretGenerator (package generate, randBytes / genToken and friends) -/

/-- Characters a bootstrap token can consist of
(`validBootstrapTokenChars` in the source). -/
def validBootstrapTokenChars : String := "0123456789abcdefghijklmnopqrstuvwxyz"

/-- Cutoff for rejection sampling: bytes at or above 252 are discarded
(`maxByteValue` in the source; 252 = 7 * 36). -/
def maxByteValue : Nat := 252

/-- Character of the token alphabet at index `k` (the source indexes
`validBootstrapTokenChars[int(b)%len(validBootstrapTokenChars)]`). -/
def alphabetChar (k : Nat) : Char := validBootstrapTokenChars.data.getD k '0'

/-- Draws bytes from the entropy stream until one below `maxByteValue` is
found, returning it with the remaining stream; `none` models the entropy
source erroring out (stream exhausting).  Stream elements are reduced
`% 256` because the source reads `byte` values. -/
def nextAcceptedByte : List Nat → Option (Nat × List Nat)
  | [] => none
  | b :: rest =>
    if b % 256 < maxByteValue then some (b % 256, rest)
    else nextAcceptedByte rest

/-- Embedding of `randBytes(length)`: a random string of `length`
characters over `validBootstrapTokenChars`, by rejection sampling over the
entropy stream.  Returns the string and the unconsumed stream; an
exhausted stream models a read error from the entropy source. -/
def randBytes : Nat → List Nat → Except String (String × List Nat)
  | 0, ent => .ok ("", ent)
  | n + 1, ent =>
    match nextAcceptedByte ent with
    | none => .error "entropy source read failed"
    | some (b, rest) =>
      match randBytes n rest with
      | .ok (s, rest2) => .ok (String.mk (alphabetChar (b % 36) :: s.data), rest2)
      | .error e => .error e

/-- Embedding of `genToken(lenFirst, lenSecond)`: two `randBytes` strings
joined by a dot. -/
def genToken (lenFirst lenSecond : Nat) (ent : List Nat) :
    Except String (String × List Nat) :=
  match randBytes lenFirst ent with
  | .error e => .error e
  | .ok (first, ent1) =>
    match randBytes lenSecond ent1 with
    | .error e => .error e
    | .ok (second, ent2) => .ok (first ++ "." ++ second, ent2)

/-- Hex digit character for a value below 16 (lowercase, as Go
`encoding/hex`). -/
def hexChar (k : Nat) : Char := "0123456789abcdef".data.getD k '0'

/-- Embedding of `hex.EncodeToString`: two lowercase hex characters per
byte. -/
def hexEncodeBytes : List Nat → List Char
  | [] => []
  | b :: rest => hexChar (b % 256 / 16) :: hexChar (b % 256 % 16) :: hexEncodeBytes rest

/-- Embedding of `hex.EncodeToString` returning a `String`. -/
def hexEncodeToString (bs : List Nat) : String := String.mk (hexEncodeBytes bs)

/-- Modelled from the spec: stand-in for the external `crypto/sha256`
collaborator's `Sum256`.  The source relies only on its type — it maps any
byte string to exactly 32 bytes ( `[32]byte` in Go) — and no claim depends
on the digest values, so the mixing function here is a placeholder with
the correct arity. -/
def sha256Sum256 (bs : List Nat) : List Nat :=
  (List.range 32).map fun i =>
    bs.foldl (fun a b => (a * 31 + b + i) % 256) ((i + 7) % 256)

/-- ASCII byte values of a string (the source's `[]byte(key)` conversion;
token characters are all ASCII). -/
def stringBytes (s : String) : List Nat := s.data.map Char.toNat

/-- Embedding of `generateCertificateKey`: SHA-256 digest of a 32-character
`randBytes` string, hex-encoded. -/
def generateCertificateKey (ent : List Nat) : Except String (String × List Nat) :=
  match randBytes 32 ent with
  | .error e => .error e
  | .ok (key, rest) => .ok (hexEncodeToString (sha256Sum256 (stringBytes key)), rest)

/-- Standard base64 alphabet character (Go `encoding/base64.StdEncoding`). -/
def base64Char (k : Nat) : Char :=
  "ABCDEFGHIJKLMNOPQRSTUVWXYZabcdefghijklmnopqrstuvwxyz0123456789+/".data.getD k 'A'

/-- Embedding of `base64.StdEncoding.EncodeToString`: 3-byte groups map to
4 alphabet characters; a 2-byte remainder maps to 3 characters plus one
pad, a 1-byte remainder to 2 characters plus two pads. -/
def base64EncodeChars : List Nat → List Char
  | b0 :: b1 :: b2 :: rest =>
    base64Char (b0 / 4) :: base64Char ((b0 % 4) * 16 + b1 / 16) ::
      base64Char ((b1 % 16) * 4 + b2 / 64) :: base64Char (b2 % 64) ::
      base64EncodeChars rest
  | [b0, b1] =>
    [base64Char (b0 / 4), base64Char ((b0 % 4) * 16 + b1 / 16),
     base64Char ((b1 % 16) * 4), '=']
  | [b0] =>
    [base64Char (b0 / 4), base64Char ((b0 % 4) * 16), '=', '=']
  | [] => []

/-- Embedding of `base64.StdEncoding.EncodeToString` returning a `String`. -/
def base64StdEncode (bs : List Nat) : String := String.mk (base64EncodeChars bs)

/-- Embedding of `cis.CreateEncryptionToken`: read exactly 32 bytes from
the entropy source and base64-encode them (no rejection sampling, no
digest). -/
def CreateEncryptionToken (ent : List Nat) : Except String (String × List Nat) :=
  if ent.length < 32 then .error "entropy source read failed"
  else .ok (base64StdEncode ((ent.take 32).map (· % 256)), ent.drop 32)

/-! ## Go net.ParseIP / To4 (standard-library collaborators of `isIPv6`)

The `generate` package decides the address family of the master IPs with
`net.ParseIP(a)` and `ip.To4()`; these are embedded here following the Go
standard library of the source's era (dtoi/xtoi with the 0xFFFFFF bound,
dotted-quad IPv4 stored in 4-in-6 form, full IPv6 grammar with one
optional `::` ellipsis and an optional trailing dotted quad). -/

/-- Embedding of Go `dtoi`: leading decimal digits of `s`, together with
the count of characters consumed and an ok flag (false when no digit or
when the value reaches 0xFFFFFF). -/
def dtoiAux : List Char → Nat → Nat → Nat × Nat × Bool
  | [], n, i => if i = 0 then (0, 0, false) else (n, i, true)
  | c :: rest, n, i =>
    if '0' ≤ c ∧ c ≤ '9' then
      let n' := n * 10 + (c.toNat - 48)
      if n' ≥ 0xFFFFFF then (0xFFFFFF, i, false)
      else dtoiAux rest n' (i + 1)
    else if i = 0 then (0, 0, false) else (n, i, true)

/-- Go `dtoi` entry point. -/
def dtoi (s : List Char) : Nat × Nat × Bool := dtoiAux s 0 0

/-- Value of a hexadecimal digit character, if it is one. -/
def hexDigitVal (c : Char) : Option Nat :=
  if '0' ≤ c ∧ c ≤ '9' then some (c.toNat - 48)
  else if 'a' ≤ c ∧ c ≤ 'f' then some (c.toNat - 97 + 10)
  else if 'A' ≤ c ∧ c ≤ 'F' then some (c.toNat - 65 + 10)
  else none

/-- Embedding of Go `xtoi`: leading hexadecimal digits of `s`, with count
consumed and ok flag (false when no digit or on reaching 0xFFFFFF). -/
def xtoiAux : List Char → Nat → Nat → Nat × Nat × Bool
  | [], n, i => if i = 0 then (0, 0, false) else (n, i, true)
  | c :: rest, n, i =>
    match hexDigitVal c with
    | none => if i = 0 then (0, i, false) else (n, i, true)
    | some d =>
      let n' := n * 16 + d
      if n' ≥ 0xFFFFFF then (0, i, false)
      else xtoiAux rest n' (i + 1)

/-- Go `xtoi` entry point. -/
def xtoi (s : List Char) : Nat × Nat × Bool := xtoiAux s 0 0

/-- Prefix Go's `IPv4()` constructor puts before the four IPv4 bytes: ten
zero bytes then 0xff 0xff (`v4InV6Prefix`). -/
def v4InV6 : List Nat := [0, 0, 0, 0, 0, 0, 0, 0, 0, 0, 0xff, 0xff]

/-- Parses the `k` remaining dot-separated decimal fields of a dotted
quad, Go `parseIPv4`'s loop: a dot is required before every field except
the first (`acc` empty), each field is a `dtoi` number at most 0xFF. -/
def parseIPv4Fields : Nat → List Char → List Nat → Option (List Nat × List Char)
  | 0, s, acc => some (acc, s)
  | k + 1, s, acc =>
    if s.isEmpty then none
    else
      let s1 : Option (List Char) :=
        if acc.isEmpty then some s
        else match s with
          | '.' :: r => some r
          | _ => none
      match s1 with
      | none => none
      | some s2 =>
        match dtoi s2 with
        | (n, c, ok) =>
          if ok ∧ n ≤ 0xFF then parseIPv4Fields k (s2.drop c) (acc ++ [n])
          else none

/-- Embedding of Go `parseIPv4` composed with the `IPv4()` constructor:
four decimal fields, nothing left over, result in 4-in-6 16-byte form. -/
def parseIPv4Go (s : List Char) : Option (List Nat) :=
  match parseIPv4Fields 4 s [] with
  | some (ps, rest) => if rest.isEmpty then some (v4InV6 ++ ps) else none
  | none => none

/-- After-loop code of Go `parseIPv6`: the string must be consumed; a
short address needs an ellipsis and is expanded with zero bytes at the
ellipsis position; a full-length address must not also carry an
ellipsis. -/
def parseIPv6Finish (s : List Char) (acc : List Nat) (ell : Option Nat) :
    Option (List Nat) :=
  if ¬ s.isEmpty then none
  else if acc.length < 16 then
    match ell with
    | none => none
    | some e => some (acc.take e ++ List.replicate (16 - acc.length) 0 ++ acc.drop e)
  else
    if ell.isSome then none else some acc

/-- Main loop of Go `parseIPv6`: repeatedly read a hex group (at most
0xFFFF), accept an optional trailing dotted quad in the last four bytes,
require a colon between groups, and record at most one `::` ellipsis.
`acc` holds the bytes written so far, `ell` the ellipsis byte position.
Fuel decreases on every iteration; each iteration consumes at least one
character, so `s.length + 1` fuel never runs out. -/
def parseIPv6Loop : Nat → List Char → List Nat → Option Nat → Option (List Nat)
  | 0, _, _, _ => none
  | fuel + 1, s, acc, ell =>
    if acc.length ≥ 16 then parseIPv6Finish s acc ell
    else
      match xtoi s with
      | (n, c, ok) =>
        if ¬ ok ∨ n > 0xFFFF then none
        else if c < s.length ∧ s.getD c ' ' = '.' then
          if ell.isNone ∧ acc.length ≠ 12 then none
          else if acc.length + 4 > 16 then none
          else
            match parseIPv4Go s with
            | none => none
            | some ip4 => parseIPv6Finish [] (acc ++ ip4.drop 12) ell
        else
          let acc1 := acc ++ [n / 256, n % 256]
          let s1 := s.drop c
          if s1.isEmpty then parseIPv6Finish [] acc1 ell
          else if s1.headD ' ' ≠ ':' ∨ s1.length = 1 then none
          else
            let s2 := s1.drop 1
            if s2.headD ' ' = ':' then
              if ell.isSome then none
              else
                let s3 := s2.drop 1
                if s3.isEmpty then parseIPv6Finish [] acc1 (some acc1.length)
                else parseIPv6Loop fuel s3 acc1 (some acc1.length)
            else parseIPv6Loop fuel s2 acc1 ell

/-- Embedding of Go `parseIPv6`, including the leading-`::` special
case. -/
def parseIPv6Go (s : List Char) : Option (List Nat) :=
  match s with
  | ':' :: ':' :: rest =>
    if rest.isEmpty then some (List.replicate 16 0)
    else parseIPv6Loop (rest.length + 1) rest [] (some 0)
  | _ => parseIPv6Loop (s.length + 1) s [] none

/-- First `.` or `:` of the string decides the family, Go `ParseIP`'s
dispatch loop. -/
def firstDotOrColon : List Char → Option Char
  | [] => none
  | c :: r => if c = '.' ∨ c = ':' then some c else firstDotOrColon r

/-- Embedding of Go `net.ParseIP`: dotted quad on a first `.`, IPv6 on a
first `:`, `none` otherwise. -/
def goParseIP (s : String) : Option (List Nat) :=
  match firstDotOrColon s.data with
  | some '.' => parseIPv4Go s.data
  | some ':' => parseIPv6Go s.data
  | _ => none

/-- Embedding of Go `IP.To4`: a 4-byte address as-is; a 16-byte address
only when it carries the 4-in-6 prefix (ten zeros then 0xff 0xff). -/
def ipTo4 (ip : List Nat) : Option (List Nat) :=
  if ip.length = 4 then some ip
  else if ip.length = 16 ∧ (ip.take 10).all (· = 0) ∧
      ip.getD 10 0 = 0xff ∧ ip.getD 11 0 = 0xff then
    some (ip.drop 12)
  else none

/-- One address is IPv6 in the sense of the source's `isIPv6` loop body:
it parses, and has no IPv4 representation. -/
def addrIsIPv6 (a : String) : Bool :=
  match goParseIP a with
  | some ip => (ipTo4 ip).isNone
  | none => false

/-- Embedding of `isIPv6(addrs...)`: true as soon as any address parses
as an IP with no IPv4 representation. -/
def isIPv6 (addrs : List String) : Bool := addrs.any addrIsIPv6

/-! ## BootstrapInput data model (package generate) -/

/-- Embedding of `x509.PEMEncodedCertificateAndKey` (PEM payloads kept as
opaque strings). -/
structure PEMEncodedCertificateAndKey where
  Crt : String
  Key : String
deriving Repr, DecidableEq

/-- Embedding of `Certs`. -/
structure Certs where
  Admin : PEMEncodedCertificateAndKey
  Etcd : PEMEncodedCertificateAndKey
  K8s : PEMEncodedCertificateAndKey
  OS : PEMEncodedCertificateAndKey
deriving Repr, DecidableEq

/-- Embedding of `KubeadmTokens`. -/
structure KubeadmTokens where
  BootstrapToken : String
  AESCBCEncryptionSecret : String
  CertificateKey : String
deriving Repr, DecidableEq

/-- Embedding of `TrustdInfo`. -/
structure TrustdInfo where
  Token : String
deriving Repr, DecidableEq

/-- Embedding of the `Input` structure. -/
structure Input where
  Certs : Certs
  ControlPlaneEndpoint : String
  MasterIPs : List String
  AdditionalSubjectAltNames : List String
  ClusterName : String
  ServiceDomain : String
  PodNet : List String
  ServiceNet : List String
  KubernetesVersion : String
  KubeadmTokens : KubeadmTokens
  TrustdInfo : TrustdInfo
  ExternalEtcd : Bool
deriving Repr, DecidableEq

/-- `DefaultIPv4PodNet` of the source. -/
def DefaultIPv4PodNet : String := "10.244.0.0/16"

/-- `DefaultIPv4ServiceNet` of the source. -/
def DefaultIPv4ServiceNet : String := "10.96.0.0/12"

/-- `DefaultIPv6PodNet` of the source. -/
def DefaultIPv6PodNet : String := "fc00:db8:10::/56"

/-- `DefaultIPv6ServiceNet` of the source. -/
def DefaultIPv6ServiceNet : String := "fc00:db8:20::/112"

/-- Loopback/pod/service selection block at the top of `NewInput`: the
triple `(loopbackIP, podNet, serviceNet)` assigned from the `isIPv6`
test. -/
def newInputNetSelection (masterIPs : List String) : String × String × String :=
  if isIPv6 masterIPs then ("::1", DefaultIPv6PodNet, DefaultIPv6ServiceNet)
  else ("127.0.0.1", DefaultIPv4PodNet, DefaultIPv4ServiceNet)

/-- External x509/PEM collaborators invoked by `NewInput` (the
`pkg/crypto/x509` library, `encoding/pem` and stdlib `crypto/x509`
parsers).  Each field stands for one external call, taking exactly the
arguments the source passes; payloads are opaque strings.  The `NotAfter`
timestamps are wall-clock data handled entirely inside the collaborator
and are not modelled. -/
structure X509Ext where
  newSelfSignedCA : Bool → String → Except String PEMEncodedCertificateAndKey
  newKey : Except String String
  pemDecode : String → Option String
  parseECPrivateKey : String → Except String String
  newCSR : String → String → Except String String
  parseCertificateRequest : String → Except String String
  parseCertificate : String → Except String String
  newCertificateFromCSR : String → String → String → Except String String

/-- Embedding of `NewInput(clustername, masterIPs, kubernetesVersion)`:
family-dependent default selection, token generation from the entropy
stream, three CA generations, admin identity minting through the external
x509 collaborator, and assembly of the `Input`.  Fields the source leaves
at their Go zero values (`ControlPlaneEndpoint`,
`AdditionalSubjectAltNames`, `ExternalEtcd`) are set to those zero
values. -/
def NewInput (clustername : String) (masterIPs : List String)
    (kubernetesVersion : String) (ext : X509Ext) (ent : List Nat) :
    Except String Input := do
  let (loopbackIP, podNet, serviceNet) := newInputNetSelection masterIPs
  let (kubeadmBootstrapToken, ent1) ← genToken 6 16 ent
  let (kubeadmCertificateKey, ent2) ← generateCertificateKey ent1
  let (aescbcEncryptionSecret, ent3) ← CreateEncryptionToken ent2
  let (trustdToken, _ent4) ← genToken 6 16 ent3
  let kubeadmTokens : KubeadmTokens :=
    { BootstrapToken := kubeadmBootstrapToken
      AESCBCEncryptionSecret := aescbcEncryptionSecret
      CertificateKey := kubeadmCertificateKey }
  let trustdInfo : TrustdInfo := { Token := trustdToken }
  let etcdCert ← ext.newSelfSignedCA true "talos-etcd"
  let k8sCert ← ext.newSelfSignedCA true "talos-k8s"
  let osCert ← ext.newSelfSignedCA false "talos-os"
  let adminKeyPEM ← ext.newKey
  let pemBlock ←
    match ext.pemDecode adminKeyPEM with
    | none => Except.error "failed to decode admin key pem"
    | some b => Except.ok b
  let adminKeyEC ← ext.parseECPrivateKey pemBlock
  let csrPEM ← ext.newCSR adminKeyEC loopbackIP
  let csrPemBlock ←
    match ext.pemDecode csrPEM with
    | none => Except.error "failed to decode csr pem"
    | some b => Except.ok b
  let ccsr ← ext.parseCertificateRequest csrPemBlock
  let caPemBlock ←
    match ext.pemDecode osCert.Crt with
    | none => Except.error "failed to decode ca cert pem"
    | some b => Except.ok b
  let caCrt ← ext.parseCertificate caPemBlock
  let caKeyPemBlock ←
    match ext.pemDecode osCert.Key with
    | none => Except.error "failed to decode ca key pem"
    | some b => Except.ok b
  let caKey ← ext.parseECPrivateKey caKeyPemBlock
  let adminCrt ← ext.newCertificateFromCSR caCrt caKey ccsr
  let certs : Certs :=
    { Admin := { Crt := adminCrt, Key := adminKeyPEM }
      Etcd := { Crt := etcdCert.Crt, Key := etcdCert.Key }
      K8s := { Crt := k8sCert.Crt, Key := k8sCert.Key }
      OS := { Crt := osCert.Crt, Key := osCert.Key } }
  Except.ok
    { Certs := certs
      ControlPlaneEndpoint := ""
      MasterIPs := masterIPs
      AdditionalSubjectAltNames := []
      ClusterName := clustername
      ServiceDomain := "cluster.local"
      PodNet := [podNet]
      ServiceNet := [serviceNet]
      KubernetesVersion := kubernetesVersion
      KubeadmTokens := kubeadmTokens
      TrustdInfo := trustdInfo
      ExternalEtcd := false }

/-! ## Derived accessors (Endpoints, GetAPIServerEndpoint,
GetControlPlaneEndpoint, GetAPIServerSANs) -/

/-- Outcome of a Go function that may `panic`: a panic aborts the process
(unrecoverable at this call boundary), distinct from an error return. -/
inductive GoPanicOr (α : Type) where
  | panicked (msg : String) : GoPanicOr α
  | ok (v : α) : GoPanicOr α
deriving Repr, DecidableEq

/-- Embedding of `strings.Join` with separator `sep`. -/
def stringsJoin : List String → String → String
  | [], _ => ""
  | [x], _ => x
  | x :: y :: rest, sep => x ++ sep ++ stringsJoin (y :: rest) sep

/-- Embedding of Go `net.JoinHostPort`: a host containing a colon is
taken for an IPv6 literal and bracketed. -/
def goJoinHostPort (host port : String) : String :=
  if host.data.contains ':' then "[" ++ host ++ "]:" ++ port
  else host ++ ":" ++ port

/-- Embedding of `(*Input).Endpoints`: comma-joined master IPs, panicking
when there are none.  (The Go nil-receiver guard concerns only nil
pointers and has no counterpart on a value receiver.) -/
def Input.Endpoints (i : Input) : GoPanicOr String :=
  if i.MasterIPs.length < 1 then
    .panicked "cannot Endpoints without any Master IPs"
  else .ok (stringsJoin i.MasterIPs ",")

/-- Embedding of `(*Input).GetAPIServerEndpoint(port)`: host:port of the
first master IP (`refMaster = 0`), panicking when there are no master
IPs; an empty port yields the bare formatted address.  `fmtAddr` is the
external `tnet.FormatAddress` collaborator (its body is outside the
shown sources). -/
def Input.GetAPIServerEndpoint (fmtAddr : String → String) (i : Input)
    (port : String) : GoPanicOr String :=
  if i.MasterIPs.length < 1 then
    .panicked "cannot GetControlPlaneEndpoint without any Master IPs"
  else
    let refMaster : Nat := 0
    if port = "" then .ok (fmtAddr (i.MasterIPs.getD refMaster ""))
    else .ok (goJoinHostPort (i.MasterIPs.getD refMaster "") port)

/-- Embedding of `(*Input).GetControlPlaneEndpoint`: the explicit
control-plane endpoint when set, else the formatted first master IP;
panics only when both are absent. -/
def Input.GetControlPlaneEndpoint (fmtAddr : String → String) (i : Input) :
    GoPanicOr String :=
  if i.MasterIPs.length < 1 ∧ i.ControlPlaneEndpoint = "" then
    .panicked "cannot GetControlPlaneEndpoint without any Master IPs"
  else if i.ControlPlaneEndpoint ≠ "" then .ok i.ControlPlaneEndpoint
  else .ok (fmtAddr (i.MasterIPs.getD 0 ""))

/-- Embedding of `(*Input).GetAPIServerSANs`. -/
def Input.GetAPIServerSANs (i : Input) : List String :=
  ["127.0.0.1", "::1"] ++ i.MasterIPs ++ i.AdditionalSubjectAltNames

/-! ## RemoteGenerator (package gen) -/

/-- Embedding of `RemoteGenerator`: holds the security client built from
the one grpc connection that succeeded (the connection handle is kept as
an opaque string). -/
structure RemoteGenerator where
  client : String
deriving Repr, DecidableEq

/-- Error returned by `NewRemoteGenerator`: either the plain
no-endpoints error, or the `go-multierror` aggregate accumulated over the
failed endpoints, in order. -/
inductive RGError where
  | simple (msg : String) : RGError
  | multi (errs : List String) : RGError
deriving Repr, DecidableEq

/-- Endpoint loop of `NewRemoteGenerator`: try `basic.NewConnection` (the
`dial` collaborator, given endpoint, port and the token credential) on
each endpoint in order; the first success returns a generator around
the new security client, a failure is appended to the multi-error and the
next endpoint is tried; with every endpoint failed the aggregate is
returned. -/
def remoteGenLoop (dial : String → Nat → String → Except String String)
    (port : Nat) (creds : String) :
    List String → List String → Except RGError RemoteGenerator
  | acc, [] => .error (.multi acc)
  | acc, ep :: rest =>
    match dial ep port creds with
    | .error e => remoteGenLoop dial port creds (acc ++ [e]) rest
    | .ok conn => .ok { client := conn }

/-- Embedding of `NewRemoteGenerator(token, endpoints, port)`: empty
endpoint list is rejected up front, before any connection attempt;
otherwise the sequential failover loop runs.  `basic.NewTokenCredentials`
is modelled as the token itself, and the grpc dial is the `dial`
collaborator. -/
def NewRemoteGenerator (dial : String → Nat → String → Except String String)
    (token : String) (endpoints : List String) (port : Nat) :
    Except RGError RemoteGenerator :=
  if endpoints.length = 0 then
    .error (.simple "at least one root of trust endpoint is required")
  else
    remoteGenLoop dial port token [] endpoints

/-- Embedding of `securityapi.CertificateResponse` (the `ca`/`crt` PEM
payloads; an empty string is an empty/absent field). -/
structure CertificateResponse where
  Ca : String
  Crt : String
deriving Repr, DecidableEq

/-- Number of 5-second ticks that fire strictly before the 5-minute
timer: ticks at 5 s, 10 s, …, 295 s.  At the 300 s boundary the Go
`select` race between the expired timer and the 60th tick is resolved
here in favour of the timer; response latency is abstracted away. -/
def pollTickBudget : Nat := 59

/-- Polling loop of `(*RemoteGenerator).poll`, over the per-tick results
of `g.Certificate` (the `client` collaborator, indexed by tick number):
a transport error is logged and the loop continues; the first response
that arrives without transport error is returned as-is — its `ca`/`crt`
contents are not inspected; when the budget of ticks is exhausted the
timer case returns the timeout error. -/
def pollAux (client : Nat → Except String CertificateResponse) :
    Nat → Nat → Except String (String × String)
  | 0, _ => .error "timeout waiting for certificate"
  | fuel + 1, k =>
    match client k with
    | .error _ => pollAux client fuel (k + 1)
    | .ok resp => .ok (resp.Ca, resp.Crt)

/-- Embedding of `(*RemoteGenerator).poll`. -/
def poll (client : Nat → Except String CertificateResponse) :
    Except String (String × String) :=
  pollAux client pollTickBudget 0

/-- Issuance run in the presence of a caller cancellation signal firing
at wait point `cancelAt` (`none`: the caller never cancels).  The
source's `poll` selects only on its own timer and ticker, and
`Certificate` calls the security client with `context.Background()`, so
no caller signal can reach any wait point; the parameter is therefore
never consulted. -/
def pollUnderCancellation (_cancelAt : Option Nat)
    (client : Nat → Except String CertificateResponse) :
    Except String (String × String) :=
  poll client

/-- Embedding of `(*RemoteGenerator).Identity(csr)`: submit the CSR PEM
and poll; on success the `(ca, crt)` pair is returned. -/
def Identity (client : Nat → Except String CertificateResponse) :
    Except String (String × String) :=
  poll client

/-! ## ComplianceArtifactWriter (package cis) -/

/-- File entry of the modelled filesystem: contents and the permission
bits the file was created with. -/
structure FSFile where
  contents : String
  perm : Nat
deriving Repr, DecidableEq

/-- Filesystem state: an association list from path to file.  The writer
runs as root during bootstrap, so writes are modelled as always
succeeding. -/
def FS : Type := List (String × FSFile)

/-- Lookup of a path in the filesystem. -/
def fsGet (fs : FS) (p : String) : Option FSFile :=
  match fs with
  | [] => none
  | (q, f) :: rest => if q = p then some f else fsGet rest p

/-- Embedding of `ioutil.WriteFile(path, data, perm)` under root
semantics: an existing file is truncated and rewritten keeping its
permissions (the `perm` argument applies only at creation); a missing
file is created with `perm`. -/
def ioutilWriteFile (path data : String) (perm : Nat) : FS → FS
  | [] => [(path, { contents := data, perm := perm })]
  | (q, f) :: rest =>
    if q = path then (q, { contents := data, perm := f.perm }) :: rest
    else (q, f) :: ioutilWriteFile path data perm rest

/-- Modelled from the spec: `constants.AuditPolicyPath` lives in the
`pkg/constants` package, which is outside the shown sources; the spec
fixes it only as "a fixed path", so a fixed path constant is used. -/
def AuditPolicyPath : String := "/etc/kubernetes/audit-policy.yaml"

/-- Modelled from the spec: `constants.EncryptionConfigPath`, a fixed
path distinct from the audit-policy path. -/
def EncryptionConfigPath : String := "/etc/kubernetes/encryptionconfig.yaml"

/-- The `auditPolicy` document constant of the `cis` package. -/
def auditPolicy : String :=
  "apiVersion: audit.k8s.io/v1beta1\nkind: Policy\nrules:\n- level: Metadata\n"

/-- The `encryptionConfig` template constant of the `cis` package. -/
def encryptionConfigTemplate : String :=
  "kind: EncryptionConfig\napiVersion: v1\nresources:\n- resources:\n  - secrets\n  providers:\n  - aescbc:\n      keys:\n      - name: key1\n        secret: \x7b\x7b .AESCBCEncryptionSecret \x7d\x7d\n  - identity: \x7b\x7d\n"

/-- Rendering of the `encryptionConfig` template via `text/template`: the
single `AESCBCEncryptionSecret` field reference is replaced by the
secret. -/
def renderEncryptionConfig (secret : String) : String :=
  encryptionConfigTemplate.replace "\x7b\x7b .AESCBCEncryptionSecret \x7d\x7d" secret

/-- Embedding of `cis.WriteAuditPolicyToDisk`: one unconditional
`ioutil.WriteFile` of the constant policy with permission 0400 (256). -/
def WriteAuditPolicyToDisk (fs : FS) : FS :=
  ioutilWriteFile AuditPolicyPath auditPolicy 256 fs

/-- Embedding of `cis.WriteEncryptionConfigToDisk(secret)`: the rendered
template is written with permission 0400 only when `os.Stat` reports the
path missing; an existing file leaves the filesystem untouched. -/
def WriteEncryptionConfigToDisk (secret : String) (fs : FS) : FS :=
  match fsGet fs EncryptionConfigPath with
  | some _ => fs
  | none => ioutilWriteFile EncryptionConfigPath (renderEncryptionConfig secret) 256 fs

/-- Embedding of `cis.EnforceCommonMasterRequirements(secret)`: audit
policy first, then the encryption config. -/
def EnforceCommonMasterRequirements (secret : String) (fs : FS) : FS :=
  WriteEncryptionConfigToDisk secret (WriteAuditPolicyToDisk fs)

/-! ## Token-format predicates (spec section 6, "Token formats") -/

/-- Character class `[0-9a-z]` of the token format regular
expressions. -/
def isLowerAlnumChar (c : Char) : Bool :=
  (('0' ≤ c) && (c ≤ '9')) || (('a' ≤ c) && (c ≤ 'z'))

/-- Matches `^[0-9a-z]{6}\.[0-9a-z]{16}$`: 23 characters, the first six
and last sixteen lowercase alphanumeric, joined by a single dot at
position six. -/
def bootstrapTokenFormat (s : String) : Bool :=
  (s.data.take 6).all isLowerAlnumChar &&
  (match s.data.drop 6 with
   | c :: tail => (c == '.') && (tail.length == 16) && tail.all isLowerAlnumChar
   | [] => false) &&
  (s.data.length == 23)

/-- Character class `[0-9a-f]` of lowercase hexadecimal output. -/
def isHexLowerChar (c : Char) : Bool :=
  (('0' ≤ c) && (c ≤ '9')) || (('a' ≤ c) && (c ≤ 'f'))

/-- Error component of an `Except`, if any (used to state which
endpoint failed and why in the aggregated multi-error). -/
def exceptErr : Except String String → Option String
  | .error e => some e
  | .ok _ => none

/-! ## Concrete collaborators and fixtures used by witnesses -/

/-- Trivial external x509 collaborator in which every primitive call
succeeds with a tagged opaque payload. -/
def trivX509Ext : X509Ext where
  newSelfSignedCA := fun _ org => .ok { Crt := "crt-" ++ org, Key := "key-" ++ org }
  newKey := .ok "admin-key-pem"
  pemDecode := fun s => some ("block-" ++ s)
  parseECPrivateKey := fun b => .ok ("ec-" ++ b)
  newCSR := fun k ip => .ok ("csr-" ++ k ++ "-" ++ ip)
  parseCertificateRequest := fun b => .ok ("req-" ++ b)
  parseCertificate := fun b => .ok ("cert-" ++ b)
  newCertificateFromCSR := fun c k r => .ok ("signed-" ++ c ++ "-" ++ k ++ "-" ++ r)

/-- Entropy fixture: 120 bytes, all below the rejection cutoff. -/
def entFixture : List Nat := List.range 120

/-- All-zero `Input`, used as a base for test inputs. -/
def inputZero : Input where
  Certs :=
    { Admin := { Crt := "", Key := "" }, Etcd := { Crt := "", Key := "" }
      K8s := { Crt := "", Key := "" }, OS := { Crt := "", Key := "" } }
  ControlPlaneEndpoint := ""
  MasterIPs := []
  AdditionalSubjectAltNames := []
  ClusterName := ""
  ServiceDomain := ""
  PodNet := []
  ServiceNet := []
  KubernetesVersion := ""
  KubeadmTokens := { BootstrapToken := "", AESCBCEncryptionSecret := "", CertificateKey := "" }
  TrustdInfo := { Token := "" }
  ExternalEtcd := false

/-- Test input with the given master IPs and control-plane endpoint. -/
def mkInput (ms : List String) (cpe : String) : Input :=
  { inputZero with MasterIPs := ms, ControlPlaneEndpoint := cpe }

/-- Result of `NewInput` on an IPv4 master list under the trivial
collaborator and the entropy fixture. -/
def inputFixture4 : Input :=
  match NewInput "talos1" ["10.0.0.1"] "1.16.2" trivX509Ext entFixture with
  | .ok i => i
  | .error _ => inputZero

/-- Result of `NewInput` on an all-IPv6 master list under the trivial
collaborator and the entropy fixture. -/
def inputFixture6 : Input :=
  match NewInput "talos1" ["fc00:db8:10::1"] "1.16.2" trivX509Ext entFixture with
  | .ok i => i
  | .error _ => inputZero

/-- Result of `NewInput` on a mixed master list (one IPv4 address, one
IPv6 address) under the trivial collaborator and the entropy fixture. -/
def inputFixtureMixed : Input :=
  match NewInput "talos1" ["10.0.0.1", "fc00:db8:10::1"] "1.16.2" trivX509Ext entFixture with
  | .ok i => i
  | .error _ => inputZero

/-- Dial fixture: the first two endpoints refuse the connection, the
third accepts. -/
def dialThird : String → Nat → String → Except String String := fun ep _ _ =>
  if ep = "e3" then .ok "conn-e3"
  else .error ("dial tcp " ++ ep ++ ": connection refused")

/-- Dial fixture: every endpoint refuses the connection. -/
def dialRefuse : String → Nat → String → Except String String := fun ep _ _ =>
  .error ("dial tcp " ++ ep ++ ": connection refused")

/-! ## Theorems -/

/-- Membership of an in-range index lookup. -/
theorem getD_mem_of_lt {l : List Char} {k : Nat} {d : Char} (h : k < l.length) :
    l.getD k d ∈ l := by
  rw [List.getD_eq_getElem l d h]
  exact List.getElem_mem h

/-- Alphabet characters produced by `alphabetChar` on indices below 36
belong to the token alphabet. -/
theorem alphabetChar_mem {k : Nat} (h : k < 36) :
    alphabetChar k ∈ validBootstrapTokenChars.data :=
  getD_mem_of_lt (l := validBootstrapTokenChars.data) (by simpa [validBootstrapTokenChars] using h)

/-- Successful `randBytes` output has the requested length and stays in
the token alphabet. -/
theorem randBytes_ok : ∀ (n : Nat) (ent : List Nat) (s : String) (rest : List Nat),
    randBytes n ent = .ok (s, rest) →
      s.length = n ∧ ∀ c ∈ s.data, c ∈ validBootstrapTokenChars.data := by
  intro n
  induction n with
  | zero =>
    intro ent s rest h
    simp only [randBytes, Except.ok.injEq, Prod.mk.injEq] at h
    obtain ⟨h1, _⟩ := h
    subst h1
    exact ⟨rfl, by intro c hc; simp at hc⟩
  | succ n ih =>
    intro ent s rest h
    rw [randBytes] at h
    cases hna : nextAcceptedByte ent with
    | none => rw [hna] at h; exact absurd h (by simp)
    | some p =>
      obtain ⟨b, rest1⟩ := p
      rw [hna] at h
      dsimp only at h
      cases hr : randBytes n rest1 with
      | error e => rw [hr] at h; exact absurd h (by simp)
      | ok q =>
        obtain ⟨s1, rest2⟩ := q
        rw [hr] at h
        simp only [Except.ok.injEq, Prod.mk.injEq] at h
        obtain ⟨hs, _⟩ := h
        subst hs
        obtain ⟨ihlen, ihmem⟩ := ih rest1 s1 rest2 hr
        refine ⟨?_, ?_⟩
        · show (alphabetChar (b % 36) :: s1.data).length = n + 1
          simp only [List.length_cons]
          exact congrArg (· + 1) ihlen
        · intro c hc
          rcases List.mem_cons.mp hc with hc | hc
          · subst hc
            exact alphabetChar_mem (Nat.mod_lt _ (by norm_num))
          · exact ihmem c hc

/-- C6: for every requested length and entropy stream, `randBytes`
returns (when it returns) a string of exactly that many characters over
the 36-symbol lowercase-alphanumeric alphabet; a drawn byte at or above
the 252 cutoff is discarded and redrawn; an accepted byte is mapped
modulo 36 to an alphabet character; and exactly 7 accepted byte values
map to each alphabet symbol. -/
theorem randBytes_rejection_sampling :
    (∀ (n : Nat) (ent : List Nat) (s : String) (rest : List Nat),
        randBytes n ent = .ok (s, rest) →
          s.length = n ∧ ∀ c ∈ s.data, c ∈ validBootstrapTokenChars.data)
    ∧ (∀ (n b : Nat) (ent : List Nat), maxByteValue ≤ b % 256 →
        randBytes (n + 1) (b :: ent) = randBytes (n + 1) ent)
    ∧ (∀ (n b : Nat) (ent : List Nat), b % 256 < maxByteValue →
        randBytes (n + 1) (b :: ent) =
          Except.map
            (fun p => (String.mk (alphabetChar (b % 256 % 36) :: p.1.data), p.2))
            (randBytes n ent))
    ∧ (∀ j : Fin 36,
        ((Finset.range 252).filter (fun b => b % 36 = (j : Nat))).card = 7) := by
  refine ⟨randBytes_ok, ?_, ?_, by decide⟩
  · intro n b ent h
    have hskip : nextAcceptedByte (b :: ent) = nextAcceptedByte ent := by
      rw [nextAcceptedByte, if_neg (by omega)]
    rw [randBytes, hskip, randBytes]
  · intro n b ent h
    have hacc : nextAcceptedByte (b :: ent) = some (b % 256, ent) := by
      rw [nextAcceptedByte, if_pos (by omega)]
    rw [randBytes, hacc]
    dsimp only
    cases hr : randBytes n ent with
    | error e => rfl
    | ok q => obtain ⟨s1, r1⟩ := q; rfl

/-- Witness for C6 at concrete inputs: bytes 10 and 20 yield "ak", and a
leading byte of 255 is discarded. -/
theorem randBytes_rejection_sampling_witness :
    (("ak" : String).length = 2 ∧
      ∀ c ∈ ("ak" : String).data, c ∈ validBootstrapTokenChars.data)
    ∧ randBytes 1 [255, 7] = randBytes 1 [7] :=
  ⟨randBytes_rejection_sampling.1 2 [10, 20] "ak" [] (by rfl),
   randBytes_rejection_sampling.2.1 0 255 [7] (by decide)⟩


theorem NewInput_ok_fields {cn kv : String} {ms : List String} {ext : X509Ext}
    {ent : List Nat} {input : Input}
    (h : NewInput cn ms kv ext ent = .ok input) :
    ∃ bt ck es tt ent1 ent2 ent3 ent4,
      genToken 6 16 ent = .ok (bt, ent1) ∧
      generateCertificateKey ent1 = .ok (ck, ent2) ∧
      CreateEncryptionToken ent2 = .ok (es, ent3) ∧
      genToken 6 16 ent3 = .ok (tt, ent4) ∧
      input.KubeadmTokens = ⟨bt, es, ck⟩ ∧
      input.TrustdInfo = ⟨tt⟩ ∧
      input.MasterIPs = ms ∧
      input.ControlPlaneEndpoint = "" ∧
      input.PodNet = [(newInputNetSelection ms).2.1] ∧
      input.ServiceNet = [(newInputNetSelection ms).2.2] ∧
      (∃ keyEC csrPEM, ext.newCSR keyEC (newInputNetSelection ms).1 = .ok csrPEM) := by
  rcases hsel : newInputNetSelection ms with ⟨lb, rest⟩
  rcases rest with ⟨pn, sn⟩
  rw [NewInput, hsel] at h
  simp only [bind, Except.bind] at h
  rcases h1 : genToken 6 16 ent with e1 | p1
  case error => rw [h1] at h; exact absurd h (by simp)
  case ok =>
  rw [h1] at h
  obtain ⟨bt, ent1⟩ := p1
  dsimp only at h
  rcases h2 : generateCertificateKey ent1 with e2 | p2
  case error => rw [h2] at h; exact absurd h (by simp)
  case ok =>
  rw [h2] at h
  obtain ⟨ck, ent2⟩ := p2
  dsimp only at h
  rcases h3 : CreateEncryptionToken ent2 with e3 | p3
  case error => rw [h3] at h; exact absurd h (by simp)
  case ok =>
  rw [h3] at h
  obtain ⟨es, ent3⟩ := p3
  dsimp only at h
  rcases h4 : genToken 6 16 ent3 with e4 | p4
  case error => rw [h4] at h; exact absurd h (by simp)
  case ok =>
  rw [h4] at h
  obtain ⟨tt, ent4⟩ := p4
  dsimp only at h
  rcases h5 : ext.newSelfSignedCA true "talos-etcd" with e5 | etcdCert
  case error => rw [h5] at h; exact absurd h (by simp)
  case ok =>
  rw [h5] at h
  dsimp only at h
  rcases h6 : ext.newSelfSignedCA true "talos-k8s" with e6 | k8sCert
  case error => rw [h6] at h; exact absurd h (by simp)
  case ok =>
  rw [h6] at h
  dsimp only at h
  rcases h7 : ext.newSelfSignedCA false "talos-os" with e7 | osCert
  case error => rw [h7] at h; exact absurd h (by simp)
  case ok =>
  rw [h7] at h
  dsimp only at h
  rcases h8 : ext.newKey with e8 | adminKeyPEM
  case error => rw [h8] at h; exact absurd h (by simp)
  case ok =>
  rw [h8] at h
  dsimp only at h
  rcases h9 : ext.pemDecode adminKeyPEM with _ | blk1
  case none => rw [h9] at h; exact absurd h (by simp)
  case some =>
  rw [h9] at h
  dsimp only at h
  rcases h10 : ext.parseECPrivateKey blk1 with e10 | adminKeyEC
  case error => rw [h10] at h; exact absurd h (by simp)
  case ok =>
  rw [h10] at h
  dsimp only at h
  rcases h11 : ext.newCSR adminKeyEC lb with e11 | csrPEM
  case error => rw [h11] at h; exact absurd h (by simp)
  case ok =>
  rw [h11] at h
  dsimp only at h
  rcases h12 : ext.pemDecode csrPEM with _ | blk2
  case none => rw [h12] at h; exact absurd h (by simp)
  case some =>
  rw [h12] at h
  dsimp only at h
  rcases h13 : ext.parseCertificateRequest blk2 with e13 | ccsr
  case error => rw [h13] at h; exact absurd h (by simp)
  case ok =>
  rw [h13] at h
  dsimp only at h
  rcases h14 : ext.pemDecode osCert.Crt with _ | blk3
  case none => rw [h14] at h; exact absurd h (by simp)
  case some =>
  rw [h14] at h
  dsimp only at h
  rcases h15 : ext.parseCertificate blk3 with e15 | caCrt
  case error => rw [h15] at h; exact absurd h (by simp)
  case ok =>
  rw [h15] at h
  dsimp only at h
  rcases h16 : ext.pemDecode osCert.Key with _ | blk4
  case none => rw [h16] at h; exact absurd h (by simp)
  case some =>
  rw [h16] at h
  dsimp only at h
  rcases h17 : ext.parseECPrivateKey blk4 with e17 | caKey
  case error => rw [h17] at h; exact absurd h (by simp)
  case ok =>
  rw [h17] at h
  dsimp only at h
  rcases h18 : ext.newCertificateFromCSR caCrt caKey ccsr with e18 | adminCrt
  case error => rw [h18] at h; exact absurd h (by simp)
  case ok =>
  rw [h18] at h
  dsimp only at h
  simp only [Except.ok.injEq] at h
  subst h
  exact ⟨bt, ck, es, tt, ent1, ent2, ent3, ent4, rfl, h2, h3, h4, rfl, rfl, rfl, rfl, rfl, rfl,
    adminKeyEC, csrPEM, h11⟩

/-- Every character of the token alphabet is lowercase alphanumeric. -/
theorem mem_alphabet_lowerAlnum : ∀ c ∈ validBootstrapTokenChars.data, isLowerAlnumChar c = true := by
  decide

/-- Successful `genToken 6 16` output matches the bootstrap-token
format. -/
theorem genToken_ok_format {ent ent2 : List Nat} {t : String}
    (h : genToken 6 16 ent = .ok (t, ent2)) : bootstrapTokenFormat t = true := by
  unfold genToken at h
  rcases h1 : randBytes 6 ent with e1 | p1
  case error => rw [h1] at h; exact absurd h (by simp)
  case ok =>
  rw [h1] at h
  obtain ⟨a, entA⟩ := p1
  dsimp only at h
  rcases h2 : randBytes 16 entA with e2 | p2
  case error => rw [h2] at h; exact absurd h (by simp)
  case ok =>
  rw [h2] at h
  obtain ⟨b, entB⟩ := p2
  simp only [Except.ok.injEq, Prod.mk.injEq] at h
  obtain ⟨ht, _⟩ := h
  subst ht
  obtain ⟨ha, hamem⟩ := randBytes_ok 6 ent a entA h1
  obtain ⟨hb, hbmem⟩ := randBytes_ok 16 entA b entB h2
  have h6 : a.data.length = 6 := ha
  have h16 : b.data.length = 16 := hb
  have hdata : (a ++ "." ++ b).data = a.data ++ '.' :: b.data := by
    rw [String.data_append, String.data_append, List.append_assoc]
    rfl
  unfold bootstrapTokenFormat
  rw [hdata, ← h6, List.take_left, List.drop_left]
  dsimp only
  simp only [Bool.and_eq_true, List.all_eq_true, beq_iff_eq, List.length_append,
    List.length_cons]
  refine ⟨⟨?_, ⟨trivial, h16⟩, ?_⟩, ?_⟩
  · intro c hc
    exact mem_alphabet_lowerAlnum c (hamem c hc)
  · intro c hc
    exact mem_alphabet_lowerAlnum c (hbmem c hc)
  · omega

/-- Every lowercase hexadecimal digit satisfies `isHexLowerChar`. -/
theorem mem_hexDigits_hexLower : ∀ c ∈ ("0123456789abcdef" : String).data, isHexLowerChar c = true := by
  decide

/-- `hexChar` of an index below 16 is a lowercase hexadecimal digit. -/
theorem hexChar_hexLower {k : Nat} (h : k < 16) : isHexLowerChar (hexChar k) = true :=
  mem_hexDigits_hexLower _ (getD_mem_of_lt (l := ("0123456789abcdef" : String).data) (by simpa using h))

/-- Length of `hexEncodeBytes`: two characters per byte. -/
theorem hexEncodeBytes_length : ∀ bs : List Nat, (hexEncodeBytes bs).length = 2 * bs.length := by
  intro bs
  induction bs with
  | nil => rfl
  | cons b rest ih =>
    rw [hexEncodeBytes]
    simp only [List.length_cons, ih]
    omega

/-- Every character of `hexEncodeBytes` output is a lowercase
hexadecimal digit. -/
theorem hexEncodeBytes_mem : ∀ (bs : List Nat), ∀ c ∈ hexEncodeBytes bs, isHexLowerChar c = true := by
  intro bs
  induction bs with
  | nil => intro c hc; simp [hexEncodeBytes] at hc
  | cons b rest ih =>
    intro c hc
    rw [hexEncodeBytes] at hc
    rcases List.mem_cons.mp hc with hc1 | hc2
    · subst hc1
      refine hexChar_hexLower ?_
      have hlt : b % 256 < 256 := Nat.mod_lt _ (by norm_num)
      exact Nat.div_lt_of_lt_mul (by omega)
    · rcases List.mem_cons.mp hc2 with hc3 | hc4
      · subst hc3
        exact hexChar_hexLower (Nat.mod_lt _ (by norm_num))
      · exact ih c hc4

/-- The modelled digest always has 32 bytes (Go return type
`[32]byte`). -/
theorem sha256Sum256_length (bs : List Nat) : (sha256Sum256 bs).length = 32 := by
  simp [sha256Sum256]

/-- Successful `generateCertificateKey` output is 64 lowercase hex
characters: the hex encoding of the 32-byte digest of a 32-byte random
input. -/
theorem generateCertificateKey_ok {ent ent2 : List Nat} {ck : String}
    (h : generateCertificateKey ent = .ok (ck, ent2)) :
    ck.length = 64 ∧ (∀ c ∈ ck.data, isHexLowerChar c = true) ∧
      ∃ key : List Nat, key.length = 32 ∧ ck = hexEncodeToString (sha256Sum256 key) := by
  unfold generateCertificateKey at h
  rcases h1 : randBytes 32 ent with e1 | p1
  case error => rw [h1] at h; exact absurd h (by simp)
  case ok =>
  rw [h1] at h
  obtain ⟨key, entA⟩ := p1
  simp only [Except.ok.injEq, Prod.mk.injEq] at h
  obtain ⟨hck, _⟩ := h
  subst hck
  obtain ⟨hlen, _⟩ := randBytes_ok 32 ent key entA h1
  refine ⟨?_, ?_, stringBytes key, ?_, rfl⟩
  · show (hexEncodeBytes (sha256Sum256 (stringBytes key))).length = 64
    rw [hexEncodeBytes_length, sha256Sum256_length]
  · intro c hc
    exact hexEncodeBytes_mem _ c hc
  · show (key.data.map Char.toNat).length = 32
    rw [List.length_map]
    exact hlen

/-- Successful `CreateEncryptionToken` output is the standard base64
encoding of the 32 bytes read from the entropy source. -/
theorem CreateEncryptionToken_ok {ent ent2 : List Nat} {es : String}
    (h : CreateEncryptionToken ent = .ok (es, ent2)) :
    ∃ bs : List Nat, bs.length = 32 ∧ (∀ b ∈ bs, b < 256) ∧ es = base64StdEncode bs := by
  rw [CreateEncryptionToken] at h
  by_cases hlen : ent.length < 32
  · rw [if_pos hlen] at h; exact absurd h (by simp)
  · rw [if_neg hlen] at h
    simp only [Except.ok.injEq, Prod.mk.injEq] at h
    obtain ⟨hes, _⟩ := h
    refine ⟨(ent.take 32).map (· % 256), ?_, ?_, hes.symm⟩
    · rw [List.length_map, List.length_take]
      omega
    · intro b hb
      obtain ⟨x, _, hx⟩ := List.mem_map.mp hb
      subst hx
      exact Nat.mod_lt _ (by norm_num)

/-- C7: every successfully generated bootstrap token and trust-service
token matches the 6-dot-16 lowercase-alphanumeric format, the
certificate key is 64 lowercase hex characters (the hex encoding of the
SHA-256 digest of a 32-byte random input), and the encryption secret is
the standard base64 encoding of 32 random bytes. -/
theorem newInput_token_formats :
    ∀ (cn : String) (ms : List String) (kv : String) (ext : X509Ext)
      (ent : List Nat) (input : Input),
      NewInput cn ms kv ext ent = .ok input →
        bootstrapTokenFormat input.KubeadmTokens.BootstrapToken = true
        ∧ bootstrapTokenFormat input.TrustdInfo.Token = true
        ∧ input.KubeadmTokens.CertificateKey.length = 64
        ∧ (∀ c ∈ input.KubeadmTokens.CertificateKey.data, isHexLowerChar c = true)
        ∧ (∃ key : List Nat, key.length = 32 ∧
            input.KubeadmTokens.CertificateKey = hexEncodeToString (sha256Sum256 key))
        ∧ (∃ bs : List Nat, bs.length = 32 ∧ (∀ b ∈ bs, b < 256) ∧
            input.KubeadmTokens.AESCBCEncryptionSecret = base64StdEncode bs) := by
  intro cn ms kv ext ent input h
  obtain ⟨bt, ck, es, tt, e1, e2, e3, e4, h1, h2, h3, h4, hkt, hti, _, _, _, _, _⟩ :=
    NewInput_ok_fields h
  have hbt := genToken_ok_format h1
  have hck := generateCertificateKey_ok h2
  have hes := CreateEncryptionToken_ok h3
  have htt := genToken_ok_format h4
  rw [hkt, hti]
  exact ⟨hbt, htt, hck.1, hck.2.1, hck.2.2, hes⟩

/-- Witness for C7 on a concrete run of `NewInput` with the trivial
collaborator and the entropy fixture. -/
theorem newInput_token_formats_witness :
    bootstrapTokenFormat inputFixture4.KubeadmTokens.BootstrapToken = true
    ∧ bootstrapTokenFormat inputFixture4.TrustdInfo.Token = true
    ∧ inputFixture4.KubeadmTokens.CertificateKey.length = 64 := by
  have h : NewInput "talos1" ["10.0.0.1"] "1.16.2" trivX509Ext entFixture = .ok inputFixture4 :=
    rfl
  obtain ⟨a, b, c, _, _, _⟩ := newInput_token_formats _ _ _ _ _ _ h
  exact ⟨a, b, c⟩

/-- C2 (amended): `NewInput` selects the IPv6 defaults — loopback `::1`,
pod CIDR fc00:db8:10::/56 and service CIDR fc00:db8:20::/112 — exactly
when some master IP is an IPv6 address (parses with no IPv4
representation), and the IPv4 defaults — loopback `127.0.0.1`, pod CIDR
10.244.0.0/16 and service CIDR 10.96.0.0/12 — exactly when no master IP
is such an address; a list mixing IPv4 and IPv6 addresses therefore
gets the IPv6 defaults, not the IPv4 ones.  The selected loopback is
consumed by the admin-identity CSR call. -/
theorem newInput_address_family_defaults :
    ∀ (cn : String) (ms : List String) (kv : String) (ext : X509Ext)
      (ent : List Nat) (input : Input),
      NewInput cn ms kv ext ent = .ok input →
        ((∃ a ∈ ms, addrIsIPv6 a = true) →
            (newInputNetSelection ms).1 = "::1"
            ∧ input.PodNet = [DefaultIPv6PodNet]
            ∧ input.ServiceNet = [DefaultIPv6ServiceNet]
            ∧ ∃ keyEC csrPEM, ext.newCSR keyEC "::1" = .ok csrPEM)
        ∧ ((∀ a ∈ ms, addrIsIPv6 a = false) →
            (newInputNetSelection ms).1 = "127.0.0.1"
            ∧ input.PodNet = [DefaultIPv4PodNet]
            ∧ input.ServiceNet = [DefaultIPv4ServiceNet]
            ∧ ∃ keyEC csrPEM, ext.newCSR keyEC "127.0.0.1" = .ok csrPEM) := by
  intro cn ms kv ext ent input h
  obtain ⟨bt, ck, es, tt, e1, e2, e3, e4, h1, h2, h3, h4, _, _, _, _, hpn, hsn, hcsr⟩ :=
    NewInput_ok_fields h
  constructor
  · intro hex
    have hv : isIPv6 ms = true := by
      simp only [isIPv6, List.any_eq_true]
      obtain ⟨a, ha, hav⟩ := hex
      exact ⟨a, ha, hav⟩
    obtain ⟨keyEC, csrPEM, hc⟩ := hcsr
    rw [newInputNetSelection, if_pos hv] at hc
    rw [hpn, hsn, newInputNetSelection, if_pos hv]
    exact ⟨rfl, rfl, rfl, keyEC, csrPEM, hc⟩
  · intro hall
    have hv : ¬ (isIPv6 ms = true) := by
      simp only [isIPv6, List.any_eq_true]
      rintro ⟨a, ha, hav⟩
      rw [hall a ha] at hav
      exact absurd hav (by simp)
    obtain ⟨keyEC, csrPEM, hc⟩ := hcsr
    rw [newInputNetSelection, if_neg hv] at hc
    rw [hpn, hsn, newInputNetSelection, if_neg hv]
    exact ⟨rfl, rfl, rfl, keyEC, csrPEM, hc⟩

/-- Witness for C2 (amended): an all-IPv6 list gets the `::1` loopback
and the IPv6 defaults, an all-IPv4 list the `127.0.0.1` loopback and
the IPv4 defaults, on concrete `NewInput` runs. -/
theorem newInput_address_family_defaults_witness :
    ((newInputNetSelection ["fc00:db8:10::1"]).1 = "::1"
      ∧ inputFixture6.PodNet = [DefaultIPv6PodNet]
      ∧ inputFixture6.ServiceNet = [DefaultIPv6ServiceNet]
      ∧ ∃ keyEC csrPEM, trivX509Ext.newCSR keyEC "::1" = .ok csrPEM)
    ∧ ((newInputNetSelection ["10.0.0.1"]).1 = "127.0.0.1"
      ∧ inputFixture4.PodNet = [DefaultIPv4PodNet]
      ∧ inputFixture4.ServiceNet = [DefaultIPv4ServiceNet]
      ∧ ∃ keyEC csrPEM, trivX509Ext.newCSR keyEC "127.0.0.1" = .ok csrPEM) := by
  constructor
  · exact (newInput_address_family_defaults _ _ _ _ _ _
      (show NewInput "talos1" ["fc00:db8:10::1"] "1.16.2" trivX509Ext entFixture =
        .ok inputFixture6 from rfl)).1 (by decide)
  · exact (newInput_address_family_defaults _ _ _ _ _ _
      (show NewInput "talos1" ["10.0.0.1"] "1.16.2" trivX509Ext entFixture =
        .ok inputFixture4 from rfl)).2 (by decide)

/-- C2 counterexample: in the list `["10.0.0.1", "fc00:db8:10::1"]` an
IPv4 address is present ("10.0.0.1" parses and has an IPv4
representation), yet `NewInput` selects the IPv6 defaults, not the IPv4
defaults the claim requires. -/
theorem newInput_mixed_family_counterexample :
    (goParseIP "10.0.0.1").isSome = true
    ∧ (ipTo4 ((goParseIP "10.0.0.1").getD [])).isSome = true
    ∧ newInputNetSelection ["10.0.0.1", "fc00:db8:10::1"] =
        ("::1", DefaultIPv6PodNet, DefaultIPv6ServiceNet)
    ∧ inputFixtureMixed.PodNet = [DefaultIPv6PodNet]
    ∧ inputFixtureMixed.ServiceNet = [DefaultIPv6ServiceNet]
    ∧ DefaultIPv6PodNet ≠ DefaultIPv4PodNet
    ∧ DefaultIPv6ServiceNet ≠ DefaultIPv4ServiceNet := by
  exact ⟨rfl, rfl, rfl, rfl, rfl, by decide, by decide⟩



/-- Polling reaches the first tick whose response arrives without
transport error and returns that response. -/
theorem pollAux_success (client : Nat → Except String CertificateResponse) :
    ∀ (fuel k j : Nat) (resp : CertificateResponse), j < fuel →
      (∀ i, i < j → ∃ e, client (k + i) = .error e) →
      client (k + j) = .ok resp →
      pollAux client fuel k = .ok (resp.Ca, resp.Crt) := by
  intro fuel
  induction fuel with
  | zero => intro k j resp hj _ _; omega
  | succ fuel ih =>
    intro k j resp hj herr hok
    rw [pollAux]
    cases j with
    | zero =>
      rw [Nat.add_zero] at hok
      rw [hok]
    | succ j2 =>
      obtain ⟨e, he⟩ := herr 0 (by omega)
      rw [Nat.add_zero] at he
      rw [he]
      refine ih (k + 1) j2 resp (by omega) ?_ ?_
      · intro i hi
        obtain ⟨e2, he2⟩ := herr (i + 1) (by omega)
        exact ⟨e2, by rw [show k + 1 + i = k + (i + 1) by omega]; exact he2⟩
      · rw [show k + 1 + j2 = k + (j2 + 1) by omega]
        exact hok

/-- Polling returns the timeout error when every tick in the budget
fails with a transport error. -/
theorem pollAux_allfail (client : Nat → Except String CertificateResponse) :
    ∀ (fuel k : Nat),
      (∀ j, j < fuel → ∃ e, client (k + j) = .error e) →
      pollAux client fuel k = .error "timeout waiting for certificate" := by
  intro fuel
  induction fuel with
  | zero => intro k _; rfl
  | succ fuel ih =>
    intro k hall
    obtain ⟨e, he⟩ := hall 0 (by omega)
    rw [Nat.add_zero] at he
    rw [pollAux, he]
    refine ih (k + 1) ?_
    intro j hj
    obtain ⟨e2, he2⟩ := hall (j + 1) (by omega)
    exact ⟨e2, by rw [show k + 1 + j = k + (j + 1) by omega]; exact he2⟩

/-- Polling has exactly two outcomes: the timeout error, or the
`(ca, crt)` pair of some in-budget response that arrived without
transport error. -/
theorem pollAux_outcomes (client : Nat → Except String CertificateResponse) :
    ∀ (fuel k : Nat),
      pollAux client fuel k = .error "timeout waiting for certificate"
      ∨ ∃ j resp, j < fuel ∧ client (k + j) = .ok resp ∧
          pollAux client fuel k = .ok (resp.Ca, resp.Crt) := by
  intro fuel
  induction fuel with
  | zero => intro k; exact Or.inl rfl
  | succ fuel ih =>
    intro k
    rcases hck : client k with e | resp
    · rcases ih (k + 1) with h | ⟨j, resp, hj, hok, hres⟩
      · refine Or.inl ?_
        rw [pollAux, hck]
        exact h
      · refine Or.inr ⟨j + 1, resp, by omega, ?_, ?_⟩
        · rw [show k + (j + 1) = k + 1 + j by omega]
          exact hok
        · rw [pollAux, hck]
          exact hres
    · refine Or.inr ⟨0, resp, by omega, by rw [Nat.add_zero]; exact hck, ?_⟩
      rw [pollAux, hck]

/-- C1 (amended): `poll` returns at the first in-budget tick whose
`Certificate` call comes back without transport error, returning the
response's CA/certificate pair as-is — without inspecting it for
emptiness — and returns the deadline-timeout error exactly when every
tick within the 5-minute budget fails with a transport error. -/
theorem poll_first_clean_response :
    (∀ (client : Nat → Except String CertificateResponse) (k : Nat)
        (resp : CertificateResponse),
      k < pollTickBudget → (∀ j, j < k → ∃ e, client j = .error e) →
      client k = .ok resp → poll client = .ok (resp.Ca, resp.Crt))
    ∧ (∀ client : Nat → Except String CertificateResponse,
      (∀ j, j < pollTickBudget → ∃ e, client j = .error e) →
      poll client = .error "timeout waiting for certificate") := by
  constructor
  · intro client k resp hk herr hok
    refine pollAux_success client pollTickBudget 0 k resp hk ?_ ?_
    · intro i hi
      obtain ⟨e, he⟩ := herr i hi
      exact ⟨e, by rwa [Nat.zero_add]⟩
    · rwa [Nat.zero_add]
  · intro client hall
    refine pollAux_allfail client pollTickBudget 0 ?_
    intro j hj
    obtain ⟨e, he⟩ := hall j hj
    exact ⟨e, by rwa [Nat.zero_add]⟩

/-- Witness for C1 (amended): a client failing at tick 0 and answering
cleanly at tick 1 makes `poll` return that answer; an always-failing
client makes `poll` time out. -/
theorem poll_first_clean_response_witness :
    poll (fun n => if n = 1 then .ok { Ca := "CAPEM", Crt := "CRTPEM" }
      else .error "unavailable") = .ok ("CAPEM", "CRTPEM")
    ∧ poll (fun _ => .error "unavailable") =
        .error "timeout waiting for certificate" := by
  constructor
  · refine poll_first_clean_response.1
      (fun n => if n = 1 then .ok { Ca := "CAPEM", Crt := "CRTPEM" }
        else .error "unavailable") 1 { Ca := "CAPEM", Crt := "CRTPEM" }
      (by decide) ?_ rfl
    intro j hj
    have hj0 : j = 0 := by omega
    subst hj0
    exact ⟨"unavailable", rfl⟩
  · refine poll_first_clean_response.2 (fun _ => .error "unavailable") ?_
    intro j _
    exact ⟨"unavailable", rfl⟩

/-- C1 counterexample: a server that answers every poll without
transport error but with an empty CA/certificate pair makes `poll`
return success with the empty pair at the first tick; it does not keep
polling, and it does not reach the deadline-timeout error. -/
theorem poll_empty_pair_counterexample :
    poll (fun _ => .ok { Ca := "", Crt := "" }) = .ok ("", "")
    ∧ (Except.ok ("", "") : Except String (String × String)) ≠
        .error "timeout waiting for certificate" := by
  exact ⟨rfl, by simp⟩

/-- C3 (amended): the issuance call offers no cancellation: `poll`
selects only on its own deadline timer and tick, and `Certificate` uses
a background context, so a caller cancellation signal firing at any
wait point leaves the outcome unchanged — the call ends only with the
first transport-error-free response or with the deadline-timeout
error, never with a cancellation error. -/
theorem poll_ignores_cancellation :
    ∀ (cancelAt : Option Nat) (client : Nat → Except String CertificateResponse),
      pollUnderCancellation cancelAt client = poll client
      ∧ (pollUnderCancellation cancelAt client =
            .error "timeout waiting for certificate"
        ∨ ∃ k resp, k < pollTickBudget ∧ client k = .ok resp ∧
            pollUnderCancellation cancelAt client = .ok (resp.Ca, resp.Crt)) := by
  intro cancelAt client
  refine ⟨rfl, ?_⟩
  rcases pollAux_outcomes client pollTickBudget 0 with h | ⟨j, resp, hj, hok, hres⟩
  · exact Or.inl h
  · exact Or.inr ⟨j, resp, hj, by rwa [Nat.zero_add] at hok, hres⟩

/-- C3 counterexample: a cancellation signal at the very first wait
point changes nothing — with every call failing, the run still ends
with the full-deadline timeout error rather than promptly with a
cancellation error. -/
theorem poll_cancellation_counterexample :
    pollUnderCancellation (some 0) (fun _ => .error "connection refused") =
      .error "timeout waiting for certificate"
    ∧ pollUnderCancellation (some 0) (fun _ => .error "connection refused") =
        pollUnderCancellation none (fun _ => .error "connection refused") := by
  exact ⟨rfl, rfl⟩

/-- Shape of a successful failover loop run: the endpoint list splits
into a failing prefix, the first accepting endpoint (whose connection
populates the client), and an untried suffix. -/
theorem remoteGenLoop_ok_shape (dial : String → Nat → String → Except String String)
    (port : Nat) (creds : String) :
    ∀ (eps acc : List String) (g : RemoteGenerator),
      remoteGenLoop dial port creds acc eps = .ok g →
      ∃ pre ep post, eps = pre ++ ep :: post ∧
        (∀ p ∈ pre, ∃ e, dial p port creds = .error e) ∧
        dial ep port creds = .ok g.client := by
  intro eps
  induction eps with
  | nil => intro acc g h; rw [remoteGenLoop] at h; exact absurd h (by simp)
  | cons ep rest ih =>
    intro acc g h
    rw [remoteGenLoop] at h
    rcases hd : dial ep port creds with e | conn
    · rw [hd] at h
      dsimp only at h
      obtain ⟨pre, ep2, post, heps, hpre, hep⟩ := ih (acc ++ [e]) g h
      refine ⟨ep :: pre, ep2, post, by rw [heps]; rfl, ?_, hep⟩
      intro p hp
      rcases List.mem_cons.mp hp with hp1 | hp2
      · subst hp1
        exact ⟨e, hd⟩
      · exact hpre p hp2
    · rw [hd] at h
      dsimp only at h
      simp only [Except.ok.injEq] at h
      subst h
      exact ⟨[], ep, rest, rfl, by intro p hp; simp at hp, hd⟩

/-- With every endpoint failing, the failover loop returns the
aggregate of the accumulated and per-endpoint errors, in order. -/
theorem remoteGenLoop_allfail (dial : String → Nat → String → Except String String)
    (port : Nat) (creds : String) :
    ∀ (eps acc : List String),
      (∀ ep ∈ eps, ∃ e, dial ep port creds = .error e) →
      remoteGenLoop dial port creds acc eps =
        .error (.multi (acc ++ eps.filterMap fun ep => exceptErr (dial ep port creds))) := by
  intro eps
  induction eps with
  | nil => intro acc _; rw [remoteGenLoop]; simp
  | cons ep rest ih =>
    intro acc hall
    obtain ⟨e, he⟩ := hall ep (by simp)
    rw [remoteGenLoop, he]
    dsimp only
    rw [ih (acc ++ [e]) fun p hp => hall p (by simp [hp])]
    simp [List.filterMap_cons, exceptErr, he, List.append_assoc]

/-- C4: `NewRemoteGenerator` dials the endpoints strictly in list order
with no parallelism: a success means the list splits into a prefix
whose every endpoint failed (each failure recorded), the first
accepting endpoint supplying the returned client, and an untried
suffix; and when every endpoint fails the result is the aggregated
multi-error holding, in endpoint order, each endpoint's dial error. -/
theorem newRemoteGenerator_failover :
    ∀ (dial : String → Nat → String → Except String String) (token : String)
      (endpoints : List String) (port : Nat),
      (∀ g : RemoteGenerator,
        NewRemoteGenerator dial token endpoints port = .ok g →
        ∃ pre ep post, endpoints = pre ++ ep :: post ∧
          (∀ p ∈ pre, ∃ e, dial p port token = .error e) ∧
          dial ep port token = .ok g.client)
      ∧ (endpoints ≠ [] →
        (∀ ep ∈ endpoints, ∃ e, dial ep port token = .error e) →
        NewRemoteGenerator dial token endpoints port =
          .error (.multi (endpoints.filterMap fun ep => exceptErr (dial ep port token)))) := by
  intro dial token endpoints port
  constructor
  · intro g h
    rw [NewRemoteGenerator] at h
    by_cases hlen : endpoints.length = 0
    · rw [if_pos hlen] at h; exact absurd h (by simp)
    · rw [if_neg hlen] at h
      exact remoteGenLoop_ok_shape dial port token endpoints [] g h
  · intro hne hall
    rw [NewRemoteGenerator, if_neg (by simpa [List.length_eq_zero] using hne)]
    simpa using remoteGenLoop_allfail dial port token endpoints [] hall

/-- Witness for C4: with the first two endpoints refusing and the third
accepting, the decomposition names the accepting endpoint; with every
endpoint refusing, the aggregate lists both failures in order. -/
theorem newRemoteGenerator_failover_witness :
    (∃ pre ep post, (["e1", "e2", "e3"] : List String) = pre ++ ep :: post ∧
      (∀ p ∈ pre, ∃ e, dialThird p 50001 "token1" = .error e) ∧
      dialThird ep 50001 "token1" = .ok "conn-e3")
    ∧ NewRemoteGenerator dialRefuse "token1" ["e1", "e2"] 50001 =
        .error (.multi ["dial tcp e1: connection refused",
          "dial tcp e2: connection refused"]) := by
  constructor
  · exact (newRemoteGenerator_failover dialThird "token1" ["e1", "e2", "e3"] 50001).1
      { client := "conn-e3" } rfl
  · have h := (newRemoteGenerator_failover dialRefuse "token1" ["e1", "e2"] 50001).2
      (by simp)
      (by intro ep hep; exact ⟨"dial tcp " ++ ep ++ ": connection refused", rfl⟩)
    rw [h]
    rfl

/-- C10: an empty endpoint list makes `NewRemoteGenerator` return the
plain no-endpoints error without any connection attempt (the outcome is
independent of the dial collaborator), and any successful return
carries the client built from the connection of the first accepting
endpoint — never an unpopulated client. -/
theorem newRemoteGenerator_empty_and_client :
    ∀ (dial dial2 : String → Nat → String → Except String String)
      (token token2 : String) (port port2 : Nat),
      NewRemoteGenerator dial token [] port =
        .error (.simple "at least one root of trust endpoint is required")
      ∧ NewRemoteGenerator dial token [] port = NewRemoteGenerator dial2 token2 [] port2
      ∧ (∀ (endpoints : List String) (g : RemoteGenerator),
          NewRemoteGenerator dial token endpoints port = .ok g →
          ∃ pre ep post, endpoints = pre ++ ep :: post ∧
            (∀ p ∈ pre, ∃ e, dial p port token = .error e) ∧
            dial ep port token = .ok g.client) := by
  intro dial dial2 token token2 port port2
  refine ⟨rfl, rfl, ?_⟩
  intro endpoints g h
  rw [NewRemoteGenerator] at h
  by_cases hlen : endpoints.length = 0
  · rw [if_pos hlen] at h; exact absurd h (by simp)
  · rw [if_neg hlen] at h
    exact remoteGenLoop_ok_shape dial port token endpoints [] g h

/-- Witness for C10: the empty list yields the no-endpoints error, and a
concrete success carries the conn of the first accepting endpoint. -/
theorem newRemoteGenerator_empty_and_client_witness :
    NewRemoteGenerator dialRefuse "token1" [] 50001 =
      .error (.simple "at least one root of trust endpoint is required")
    ∧ (∃ pre ep post, (["e1", "e2", "e3"] : List String) = pre ++ ep :: post ∧
        (∀ p ∈ pre, ∃ e, dialThird p 50001 "token2" = .error e) ∧
        dialThird ep 50001 "token2" = .ok "conn-e3") := by
  refine ⟨(newRemoteGenerator_empty_and_client dialRefuse dialThird "token1" "t2" 50001 1).1, ?_⟩
  exact (newRemoteGenerator_empty_and_client dialThird dialThird "token2" "token2" 50001 50001).2.2
    ["e1", "e2", "e3"] { client := "conn-e3" } rfl


/-- C8: with an empty master list the derived accessors panic (an
unrecoverable process abort in the source), rather than returning a
recoverable error value: `Endpoints` and `GetAPIServerEndpoint`
unconditionally, `GetControlPlaneEndpoint` when no explicit
control-plane endpoint is set; with a non-empty master list the panic
branch is unreachable and every accessor returns a value. -/
theorem accessors_panic_on_empty_masters :
    ∀ (fmtAddr : String → String) (i : Input) (port : String),
      (i.MasterIPs = [] →
        i.Endpoints = .panicked "cannot Endpoints without any Master IPs"
        ∧ i.GetAPIServerEndpoint fmtAddr port =
            .panicked "cannot GetControlPlaneEndpoint without any Master IPs"
        ∧ (i.ControlPlaneEndpoint = "" →
            i.GetControlPlaneEndpoint fmtAddr =
              .panicked "cannot GetControlPlaneEndpoint without any Master IPs"))
      ∧ (i.MasterIPs ≠ [] →
        (∃ s, i.Endpoints = .ok s)
        ∧ (∃ s, i.GetAPIServerEndpoint fmtAddr port = .ok s)
        ∧ (∃ s, i.GetControlPlaneEndpoint fmtAddr = .ok s)) := by
  intro fmtAddr i port
  constructor
  · intro hemp
    refine ⟨?_, ?_, ?_⟩
    · rw [Input.Endpoints, if_pos (by simp [hemp])]
    · simp only [Input.GetAPIServerEndpoint]
      rw [if_pos (by simp [hemp])]
    · intro hcpe
      rw [Input.GetControlPlaneEndpoint, if_pos ⟨by simp [hemp], hcpe⟩]
  · intro hne
    have hlen : ¬ i.MasterIPs.length < 1 := by
      cases hmi : i.MasterIPs with
      | nil => exact absurd hmi hne
      | cons a rest => simp [hmi]
    refine ⟨?_, ?_, ?_⟩
    · exact ⟨stringsJoin i.MasterIPs ",", by rw [Input.Endpoints, if_neg hlen]⟩
    · by_cases hp : port = ""
      · refine ⟨fmtAddr (i.MasterIPs.getD 0 ""), ?_⟩
        simp only [Input.GetAPIServerEndpoint]
        rw [if_neg hlen, if_pos hp]
      · refine ⟨goJoinHostPort (i.MasterIPs.getD 0 "") port, ?_⟩
        simp only [Input.GetAPIServerEndpoint]
        rw [if_neg hlen, if_neg hp]
    · by_cases hcpe : i.ControlPlaneEndpoint = ""
      · refine ⟨fmtAddr (i.MasterIPs.getD 0 ""), ?_⟩
        rw [Input.GetControlPlaneEndpoint, if_neg (fun hand => hlen hand.1),
          if_neg (by simpa using hcpe)]
      · refine ⟨i.ControlPlaneEndpoint, ?_⟩
        rw [Input.GetControlPlaneEndpoint, if_neg (fun hand => hcpe hand.2),
          if_pos (by simpa using hcpe)]

/-- Witness for C8 at concrete inputs: an empty-master input panics in
`Endpoints`, `GetAPIServerEndpoint` and `GetControlPlaneEndpoint`; a
one-master input returns values from all three. -/
theorem accessors_panic_on_empty_masters_witness :
    ((mkInput [] "").Endpoints = .panicked "cannot Endpoints without any Master IPs"
      ∧ (mkInput [] "").GetAPIServerEndpoint id "6443" =
          .panicked "cannot GetControlPlaneEndpoint without any Master IPs"
      ∧ (mkInput [] "").GetControlPlaneEndpoint id =
          .panicked "cannot GetControlPlaneEndpoint without any Master IPs")
    ∧ (∃ s, (mkInput ["10.0.0.1"] "").Endpoints = .ok s) := by
  constructor
  · obtain ⟨h1, h2, h3⟩ := (accessors_panic_on_empty_masters id (mkInput [] "") "6443").1 rfl
    exact ⟨h1, h2, h3 rfl⟩
  · exact ((accessors_panic_on_empty_masters id (mkInput ["10.0.0.1"] "") "6443").2
      (by simp [mkInput, inputZero])).1

/-- C9: with a non-empty master list and a non-empty port,
`GetAPIServerEndpoint` returns the host:port join of the master IP at
index 0 with that port, whatever follows the first master. -/
theorem getAPIServerEndpoint_first_master :
    ∀ (fmtAddr : String → String) (i : Input) (port : String),
      i.MasterIPs ≠ [] → port ≠ "" →
      i.GetAPIServerEndpoint fmtAddr port =
        .ok (goJoinHostPort (i.MasterIPs.getD 0 "") port) := by
  intro fmtAddr i port hne hp
  have hlen : ¬ i.MasterIPs.length < 1 := by
    cases hmi : i.MasterIPs with
    | nil => exact absurd hmi hne
    | cons a rest => simp [hmi]
  simp only [Input.GetAPIServerEndpoint]
  rw [if_neg hlen, if_neg hp]

/-- Witness for C9 at the spec's example: masters
`["10.0.0.1", "10.0.0.2", "10.0.0.3"]` with port `"6443"` give
`"10.0.0.1:6443"`. -/
theorem getAPIServerEndpoint_first_master_witness :
    (mkInput ["10.0.0.1", "10.0.0.2", "10.0.0.3"] "").GetAPIServerEndpoint id "6443" =
      .ok "10.0.0.1:6443" := by
  have h := getAPIServerEndpoint_first_master id
    (mkInput ["10.0.0.1", "10.0.0.2", "10.0.0.3"] "") "6443"
    (by simp [mkInput, inputZero]) (by simp)
  rw [h]
  rfl

/-- A write leaves the written path holding the new data; permissions
are the pre-existing ones when the file existed, the requested ones on
creation. -/
theorem fsGet_ioutilWriteFile_self : ∀ (fs : FS) (p d : String) (perm : Nat),
    fsGet (ioutilWriteFile p d perm fs) p =
      some { contents := d,
             perm := match fsGet fs p with | some f => f.perm | none => perm } := by
  intro fs
  induction fs with
  | nil => intro p d perm; simp [ioutilWriteFile, fsGet]
  | cons e rest ih =>
    intro p d perm
    obtain ⟨q, f⟩ := e
    by_cases hq : q = p
    · simp [ioutilWriteFile, fsGet, hq]
    · simp [ioutilWriteFile, fsGet, hq, ih]

/-- C5 (amended): the encryption-configuration document is written with
0400 permissions only when its path does not already exist, and a later
call with the file present is a no-op; the audit-policy document,
however, is written unconditionally on every call — an existing file at
its path is overwritten with the constant policy text (0400 applying
only when the file is created). -/
theorem complianceArtifacts_write_behavior :
    ∀ (secret : String) (fs : FS),
      ((fsGet fs EncryptionConfigPath).isSome = true →
        WriteEncryptionConfigToDisk secret fs = fs)
      ∧ (fsGet fs EncryptionConfigPath = none →
        fsGet (WriteEncryptionConfigToDisk secret fs) EncryptionConfigPath =
          some { contents := renderEncryptionConfig secret, perm := 256 })
      ∧ (fsGet (WriteAuditPolicyToDisk fs) AuditPolicyPath =
          some { contents := auditPolicy,
                 perm := match fsGet fs AuditPolicyPath with
                   | some f => f.perm
                   | none => 256 }) := by
  intro secret fs
  refine ⟨?_, ?_, ?_⟩
  · intro hsome
    rw [WriteEncryptionConfigToDisk]
    rcases h : fsGet fs EncryptionConfigPath with _ | f
    · rw [h] at hsome; exact absurd hsome (by simp)
    · rfl
  · intro hnone
    rw [WriteEncryptionConfigToDisk, hnone]
    rw [fsGet_ioutilWriteFile_self, hnone]
  · rw [WriteAuditPolicyToDisk, fsGet_ioutilWriteFile_self]

/-- Witness for C5 (amended) at concrete filesystems: an existing
encryption config is left alone; on an empty filesystem both documents
are created with 0400 (256). -/
theorem complianceArtifacts_write_behavior_witness :
    WriteEncryptionConfigToDisk "SECRET"
        [(EncryptionConfigPath, { contents := "existing", perm := 384 })] =
      [(EncryptionConfigPath, { contents := "existing", perm := 384 })]
    ∧ fsGet (WriteEncryptionConfigToDisk "SECRET" []) EncryptionConfigPath =
        some { contents := renderEncryptionConfig "SECRET", perm := 256 }
    ∧ fsGet (WriteAuditPolicyToDisk []) AuditPolicyPath =
        some { contents := auditPolicy, perm := 256 } := by
  refine ⟨?_, ?_, ?_⟩
  · exact (complianceArtifacts_write_behavior "SECRET"
      [(EncryptionConfigPath, { contents := "existing", perm := 384 })]).1 (by rfl)
  · exact (complianceArtifacts_write_behavior "SECRET" []).2.1 rfl
  · exact (complianceArtifacts_write_behavior "SECRET" []).2.2

/-- C5 counterexample: with the audit-policy file already present with
operator-edited contents, a later `WriteAuditPolicyToDisk` call
overwrites it with the constant policy text instead of leaving the
existing file unchanged. -/
theorem writeAuditPolicy_overwrites_counterexample :
    fsGet (WriteAuditPolicyToDisk
        [(AuditPolicyPath, { contents := "operator-edited policy", perm := 256 })])
      AuditPolicyPath = some { contents := auditPolicy, perm := 256 }
    ∧ auditPolicy ≠ "operator-edited policy" := by
  exact ⟨rfl, by decide⟩

end Talos
